import Mathlib

/-!
Shallow embedding of the AWS Athena query-execution path of the
`square_mcp` server (functions `getQueryResultLocation`, `executeQuery`,
`cancelQuery` from `src/mcp_servers/js/servers/square_mcp/README.md`).

Remote collaborators (STS, Athena) are modelled as oracles whose calls
either return a value or raise (`Res`).  Awaited calls inside the
`try` block of `executeQuery` propagate a raised error to the enclosing
`catch`, which converts it into a failure envelope.
-/

namespace Athena

/-- Outcome of an awaited remote call: a value, or a raised error whose
`message` field is the carried string. -/
inductive Res (α : Type) where
  | ok : α → Res α
  | err : String → Res α
  deriving DecidableEq, Repr

/-- A wire cell: `{ VarCharValue?: string }`. -/
structure Cell where
  VarCharValue : Option String
  deriving DecidableEq, Repr

/-- A wire row: `{ Data?: Datum[] }`. -/
structure Row where
  Data : Option (List Cell)
  deriving DecidableEq, Repr

/-- Engine-reported column metadata entry: `{ Name?: string }`. -/
structure ColumnInfo where
  Name : Option String
  deriving DecidableEq, Repr

/-- The raw result set: `{ ResultSetMetadata?.ColumnInfo?, Rows? }`. -/
structure ResultSet where
  columnInfo : Option (List ColumnInfo)
  rows : Option (List Row)
  deriving DecidableEq, Repr

/-- Flattened view of one `getQueryExecution` response:
`QueryExecution?.Status?.State`, `QueryExecution?.Status?.StateChangeReason`,
`QueryExecution?.Statistics?.DataScannedInBytes`,
`QueryExecution?.Statistics?.EngineExecutionTimeInMillis`.
An entirely absent `QueryExecution` is all fields `none`. -/
structure StatusInfo where
  state : Option String
  stateChangeReason : Option String
  dataScannedInBytes : Option Nat
  engineExecutionTimeInMillis : Option Nat
  deriving DecidableEq, Repr

/-- Parameters of `athena.startQueryExecution`
(`QueryString`, `QueryExecutionContext.Database`, `WorkGroup`,
`ResultConfiguration.OutputLocation`). -/
structure StartParams where
  queryString : String
  database : String
  workGroup : String
  outputLocation : String
  deriving DecidableEq, Repr

/-- The remote collaborators one `executeQuery`/`cancelQuery` call consults.
`getQueryExecution` is indexed by the 0-based status-call number so a stub
engine can evolve between polls; every operation may raise. -/
structure Engine where
  getCallerIdentity : Res String
  startQueryExecution : StartParams → Res String
  getQueryExecution : Nat → Res StatusInfo
  getQueryResults : String → Nat → Res (Option ResultSet)
  stopQueryExecution : String → Res Unit

/-- Server configuration: whether the AWS clients initialized, the region,
`ATHENA_DATABASE`, `ATHENA_WORKGROUP` and `QUERY_TIMEOUT`. -/
structure Config where
  athenaReady : Bool
  region : String
  database : String
  workgroup : String
  queryTimeout : Nat

/-- Success payload of `executeQuery`'s envelope. -/
structure QueryData where
  query_execution_id : String
  status : String
  columns : List String
  rows : List (List (String × String))
  row_count : Nat
  data_scanned_bytes : Nat
  execution_time_ms : Nat
  deriving DecidableEq, Repr

/-- Success payload of `cancelQuery`'s envelope. -/
structure CancelData where
  query_execution_id : String
  status : String
  message : String
  deriving DecidableEq, Repr

/-- The `ToolResponse` envelope `{ success: boolean, data?, error? }`,
split on the `success` flag. -/
inductive ToolResponse (α : Type) where
  | success : α → ToolResponse α
  | failure : String → ToolResponse α
  deriving DecidableEq, Repr

/-- JavaScript `s || d` for an optional string argument: `undefined` and
the empty string are both falsy and select the default. -/
def orDefault (s : Option String) (d : String) : String :=
  match s with
  | none => d
  | some v => if v = "" then d else v

/-- `getQueryResultLocation`: try the STS caller-identity lookup; on
success build the per-account, per-region URI, on any raise fall back to
the per-region default URI.  Total: the lookup failure is swallowed. -/
def getQueryResultLocation (identityLookup : Res String) (region : String) : String :=
  match identityLookup with
  | .ok accountId => "s3://aws-athena-query-results-" ++ region ++ "-" ++ accountId ++ "/"
  | .err _ => "s3://aws-athena-query-results-" ++ region ++ "-default/"

/-- `cell.VarCharValue || ''`. -/
def decodeCell (c : Cell) : String := c.VarCharValue.getD ("")

/-- `columns[cellIndex] || ` ``col_${cellIndex}``: an out-of-range index
(JS `undefined`) and an empty-string column name are both falsy. -/
def colKey (columns : List String) (i : Nat) : String :=
  if columns.getD i ("") = "" then "col_" ++ toString i else columns.getD i ("")

/-- The `row.Data?.forEach((cell, cellIndex) => ...)` loop with the running
cell index `i`: one property assignment per present cell, in order. -/
def decodeRowDataAux (columns : List String) (i : Nat) : List Cell → List (String × String)
  | [] => []
  | c :: cs => (colKey columns i, decodeCell c) :: decodeRowDataAux columns (i + 1) cs

/-- One data row's `rowData` object, as the ordered list of property
assignments `rowData[colName] = cell.VarCharValue || ''` made by the
`row.Data?.forEach` loop, starting at cell index 0. -/
def decodeRowData (columns : List String) (cells : List Cell) : List (String × String) :=
  decodeRowDataAux columns 0 cells

/-- One step of `results.ResultSet.Rows.forEach((row, index) => ...)`:
at `index === 0` with no columns known yet, push the row's cells as the
column names; otherwise push a decoded data row. -/
def processRow (acc : List String × List (List (String × String)))
    (p : Nat × Row) : List String × List (List (String × String)) :=
  if p.1 = 0 ∧ acc.1.length = 0 then
    (acc.1 ++ (p.2.Data.getD []).map decodeCell, acc.2)
  else
    (acc.1, acc.2 ++ [decodeRowData acc.1 (p.2.Data.getD [])])

/-- The result-processing block of `executeQuery`: extract column names
from `ResultSetMetadata?.ColumnInfo` when present, then fold the
row-decoding `forEach` over the indexed rows. -/
def processResults (rs : Option ResultSet) : List String × List (List (String × String)) :=
  match rs with
  | none => ([], [])
  | some r =>
    let columns : List String :=
      match r.columnInfo with
      | some ci => ci.map (fun c => c.Name.getD (""))
      | none => []
    match r.rows with
    | none => (columns, [])
    | some rowList => rowList.enum.foldl processRow (columns, [])

/-- JavaScript `status.toLowerCase()` on the ASCII state names. -/
def lowerString (s : String) : String := String.mk (s.data.map Char.toLower)

/-- Result of the poll loop, carrying the total number of
`getQueryExecution` calls made.  `succeeded` and `terminalFailed` keep the
status response that was observed terminal (its statistics and reason are
read when building the envelope); `raised` records a status call that
raised, to be caught by `executeQuery`'s `catch`. -/
inductive PollResult where
  | succeeded : StatusInfo → Nat → PollResult
  | terminalFailed : String → StatusInfo → Nat → PollResult
  | timedOut : Nat → PollResult
  | raised : String → Nat → PollResult
  deriving DecidableEq, Repr

/-- Number of status calls a poll result records. -/
def PollResult.calls : PollResult → Nat
  | .succeeded _ n => n
  | .terminalFailed _ _ n => n
  | .timedOut n => n
  | .raised _ n => n

/-- The `while (waitTime < maxWaitTime)` loop of `executeQuery`:
read the status, return at once on a terminal state, otherwise sleep the
fixed `pollInterval` of 2000 ms and add it to `waitTime`.  `calls` counts
the status reads already made (so it also indexes the next one). -/
def pollLoop (getStatus : Nat → Res StatusInfo) (waitTime maxWaitTime calls : Nat) :
    PollResult :=
  if waitTime < maxWaitTime then
    match getStatus calls with
    | .err m => .raised m (calls + 1)
    | .ok st =>
      if st.state = some ("SUCCEEDED") then .succeeded st (calls + 1)
      else if st.state = some ("FAILED") then .terminalFailed ("FAILED") st (calls + 1)
      else if st.state = some ("CANCELLED") then .terminalFailed ("CANCELLED") st (calls + 1)
      else pollLoop getStatus (waitTime + 2000) maxWaitTime (calls + 1)
  else .timedOut calls
termination_by maxWaitTime - waitTime
decreasing_by omega

/-- The continuation of `executeQuery` once `startQueryExecution` has been
awaited: unwrap the execution id, run the poll loop, and build the
envelope the corresponding branch returns.  A raise anywhere propagates
as `Res.err` to the `catch`. -/
def afterSubmit (eng : Engine) (cfg : Config) (submitRes : Res String) :
    Res (ToolResponse QueryData) :=
  match submitRes with
  | .err m => .err m
  | .ok queryExecutionId =>
    match pollLoop eng.getQueryExecution 0 cfg.queryTimeout 0 with
    | .raised m _ => .err m
    | .succeeded st _ =>
      match eng.getQueryResults queryExecutionId 1000 with
      | .err m => .err m
      | .ok rs =>
        let decoded := processResults rs
        .ok (.success
          { query_execution_id := queryExecutionId
            status := "SUCCEEDED"
            columns := decoded.1
            rows := decoded.2
            row_count := decoded.2.length
            data_scanned_bytes := st.dataScannedInBytes.getD 0
            execution_time_ms := st.engineExecutionTimeInMillis.getD 0 })
    | .terminalFailed stState st _ =>
      .ok (.failure ("Query " ++ lowerString stState ++ ": " ++
        st.stateChangeReason.getD ("Unknown error")))
    | .timedOut _ =>
      .ok (.failure ("Query timeout after " ++ toString cfg.queryTimeout ++ "ms"))

/-- The `StartQueryExecutionInput` `executeQuery` builds: the SQL verbatim,
`database || ATHENA_DATABASE`, the configured workgroup, and the resolved
result location. -/
def mkStartParams (cfg : Config) (sql : String) (database : Option String)
    (resultLocation : String) : StartParams :=
  { queryString := sql
    database := orDefault database cfg.database
    workGroup := cfg.workgroup
    outputLocation := resultLocation }

/-- The body of `executeQuery`'s `try` block: resolve the result location,
submit, poll, decode. -/
def executeQueryTry (eng : Engine) (cfg : Config) (sql : String)
    (database : Option String) : Res (ToolResponse QueryData) :=
  afterSubmit eng cfg (eng.startQueryExecution
    (mkStartParams cfg sql database
      (getQueryResultLocation eng.getCallerIdentity cfg.region)))

/-- `executeQuery(sql, database?)`: guard on the initialized client, then
run the `try` body; the `catch` converts any raise into the
`Execution error` failure envelope. -/
def executeQuery (eng : Engine) (cfg : Config) (sql : String)
    (database : Option String) : ToolResponse QueryData :=
  if !cfg.athenaReady then
    .failure ("AWS Athena not initialized. Check credentials.")
  else
    match executeQueryTry eng cfg sql database with
    | .ok r => r
    | .err m => .failure ("Execution error: " ++ m)

/-- `cancelQuery(queryId)`: guard on the initialized client, await
`stopQueryExecution`, and return the locally-synthesized cancellation
acknowledgement; the `catch` converts a raise from the stop call into the
`Error cancelling query` failure envelope. -/
def cancelQuery (eng : Engine) (cfg : Config) (queryId : String) :
    ToolResponse CancelData :=
  if !cfg.athenaReady then
    .failure ("AWS Athena not initialized. Check credentials.")
  else
    match eng.stopQueryExecution queryId with
    | .ok _ =>
      .success
        { query_execution_id := queryId
          status := "CANCELLED"
          message := "Query cancellation requested" }
    | .err m => .failure ("Error cancelling query: " ++ m)

/-! Stub status responses and stub engines used to settle the scenario
claims. -/

/-- A `QUEUED` status response. -/
def stQUEUED : StatusInfo := ⟨some ("QUEUED"), none, none, none⟩

/-- A `RUNNING` status response. -/
def stRUNNING : StatusInfo := ⟨some ("RUNNING"), none, none, none⟩

/-- A `SUCCEEDED` status response with no statistics. -/
def stSUCCEEDED : StatusInfo := ⟨some ("SUCCEEDED"), none, none, none⟩

/-- Stub status oracle: `QUEUED` for the first `N` status calls,
`SUCCEEDED` from the `(N+1)`-th on. -/
def queuedThenSucceeded (N : Nat) : Nat → Res StatusInfo :=
  fun n => if n < N then .ok stQUEUED else .ok stSUCCEEDED

/-! Unfolding lemmas for one iteration of the poll loop. -/

/-- When the deadline is already spent the loop exits with a timeout and
no further status call. -/
theorem pollLoop_timeout (g : Nat → Res StatusInfo) {w m : Nat} (c : Nat)
    (h : ¬ w < m) : pollLoop g w m c = .timedOut c := by
  rw [pollLoop]
  simp [h]

/-- A status call that raises ends the loop at once. -/
theorem pollLoop_raised (g : Nat → Res StatusInfo) {w m c : Nat} {msg : String}
    (h : w < m) (hg : g c = .err msg) : pollLoop g w m c = .raised msg (c + 1) := by
  rw [pollLoop]
  simp [h, hg]

/-- Observing `SUCCEEDED` ends the loop at once, after `c + 1` status calls. -/
theorem pollLoop_succeeded (g : Nat → Res StatusInfo) {w m c : Nat} {st : StatusInfo}
    (h : w < m) (hg : g c = .ok st) (hs : st.state = some ("SUCCEEDED")) :
    pollLoop g w m c = .succeeded st (c + 1) := by
  rw [pollLoop]
  simp [h, hg, hs]

/-- Observing `FAILED` or `CANCELLED` ends the loop at once, after `c + 1`
status calls. -/
theorem pollLoop_terminalFailed (g : Nat → Res StatusInfo) {w m c : Nat}
    {st : StatusInfo} {s : String} (h : w < m) (hg : g c = .ok st)
    (hs : st.state = some s) (hterm : s = "FAILED" ∨ s = "CANCELLED") :
    pollLoop g w m c = .terminalFailed s st (c + 1) := by
  rw [pollLoop]
  rcases hterm with h1 | h1 <;> subst h1 <;> simp [h, hg, hs]

/-- Observing a non-terminal status continues the loop with `waitTime`
advanced by the fixed 2000 ms interval. -/
theorem pollLoop_step (g : Nat → Res StatusInfo) {w m c : Nat} {st : StatusInfo}
    (h : w < m) (hg : g c = .ok st) (h1 : st.state ≠ some ("SUCCEEDED"))
    (h2 : st.state ≠ some ("FAILED")) (h3 : st.state ≠ some ("CANCELLED")) :
    pollLoop g w m c = pollLoop g (w + 2000) m (c + 1) := by
  rw [pollLoop]
  simp [h, hg, h1, h2, h3]

/-- The poll loop never reports fewer status calls than it started from. -/
theorem pollLoop_calls_le (g : Nat → Res StatusInfo) (m : Nat) :
    ∀ w c, c ≤ (pollLoop g w m c).calls := by
  have H : ∀ k w c, m - w ≤ k → c ≤ (pollLoop g w m c).calls := by
    intro k
    induction k with
    | zero =>
      intro w c hk
      rw [pollLoop_timeout g c (by omega)]
      exact Nat.le_refl c
    | succ k ih =>
      intro w c hk
      by_cases hw : w < m
      · rw [pollLoop]
        rw [if_pos hw]
        cases hg : g c with
        | err msg => exact Nat.le_succ c
        | ok st =>
          by_cases h1 : st.state = some ("SUCCEEDED")
          · simp only [h1, if_pos]
            exact Nat.le_succ c
          · by_cases h2 : st.state = some ("FAILED")
            · simp only [h1, h2, if_neg, if_pos]
              exact Nat.le_succ c
            · by_cases h3 : st.state = some ("CANCELLED")
              · simp only [h1, h2, h3, if_neg, if_pos]
                exact Nat.le_succ c
              · simp only [h1, h2, h3, if_neg]
                exact Nat.le_trans (Nat.le_succ c) (ih (w + 2000) (c + 1) (by omega))
      · rw [pollLoop_timeout g c hw]
        exact Nat.le_refl c
  intro w c
  exact H (m - w) w c (Nat.le_refl _)

/-- Running the loop against `queuedThenSucceeded N` from call index `c`
with `k = N - c` queued reads still ahead and enough deadline budget left
for them reaches the `SUCCEEDED` read and stops there. -/
theorem pollLoop_qts_aux (N m : Nat) :
    ∀ k w c, c + k = N → w + k * 2000 < m →
      pollLoop (queuedThenSucceeded N) w m c = .succeeded stSUCCEEDED (N + 1) := by
  intro k
  induction k with
  | zero =>
    intro w c hc hw
    have hcN : c = N := by omega
    have hg : queuedThenSucceeded N c = .ok stSUCCEEDED := by
      unfold queuedThenSucceeded
      rw [if_neg (by omega)]
    rw [pollLoop_succeeded (queuedThenSucceeded N) (by omega) hg rfl, hcN]
  | succ k ih =>
    intro w c hc hw
    have hg : queuedThenSucceeded N c = .ok stQUEUED := by
      unfold queuedThenSucceeded
      rw [if_pos (by omega)]
    rw [pollLoop_step (queuedThenSucceeded N) (by omega) hg
      (by unfold stQUEUED; simp) (by unfold stQUEUED; simp) (by unfold stQUEUED; simp)]
    exact ih (w + 2000) (c + 1) (by omega) (by omega)

/-- Folding the row-decoding step over rows indexed from `n ≥ 1` never
takes the header branch: each row is appended as a decoded data row. -/
theorem foldl_processRow_enumFrom (rest : List Row) :
    ∀ (n : Nat) (cols : List String) (acc : List (List (String × String))),
      1 ≤ n →
      (List.enumFrom n rest).foldl processRow (cols, acc) =
        (cols, acc ++ rest.map (fun r => decodeRowData cols (r.Data.getD []))) := by
  induction rest with
  | nil => intro n cols acc hn; simp
  | cons r rs ih =>
    intro n cols acc hn
    have hstep : processRow (cols, acc) (n, r) =
        (cols, acc ++ [decodeRowData cols (r.Data.getD [])]) := by
      unfold processRow
      rw [if_neg (by simp; omega)]
    simp only [List.enumFrom, List.foldl_cons, hstep]
    rw [ih (n + 1) cols (acc ++ [decodeRowData cols (r.Data.getD [])]) (by omega)]
    simp

/-- `decodeRowDataAux` produces exactly one entry per present cell. -/
theorem decodeRowDataAux_length (columns : List String) :
    ∀ (cells : List Cell) (i : Nat),
      (decodeRowDataAux columns i cells).length = cells.length := by
  intro cells
  induction cells with
  | nil => intro i; rfl
  | cons c cs ih => intro i; simp [decodeRowDataAux, ih]

/-- The `j`-th entry of `decodeRowDataAux` starting at index `i` is the
assignment for cell `j`, keyed by `colKey columns (i + j)`. -/
theorem decodeRowDataAux_getD (columns : List String) :
    ∀ (cells : List Cell) (i j : Nat), j < cells.length →
      (decodeRowDataAux columns i cells).getD j ("", "") =
        (colKey columns (i + j), decodeCell (cells.getD j ⟨none⟩)) := by
  intro cells
  induction cells with
  | nil => intro i j hj; simp at hj
  | cons c cs ih =>
    intro i j hj
    cases j with
    | zero => simp [decodeRowDataAux]
    | succ j =>
      simp only [decodeRowDataAux, List.getD_cons_succ]
      rw [ih (i + 1) j (by simp at hj; omega)]
      have hidx : i + 1 + j = i + (j + 1) := by omega
      rw [hidx]

/-! Facade-reduction lemmas: how `executeQuery` turns each poll-loop
outcome into its envelope, given an initialized client and a successful
submission. -/

/-- A timed-out poll loop yields the timeout failure envelope carrying the
configured timeout. -/
theorem executeQuery_of_timedOut (eng : Engine) (cfg : Config) (sql : String)
    (database : Option String) (qid : String) (n : Nat)
    (hready : cfg.athenaReady = true)
    (hstart : eng.startQueryExecution (mkStartParams cfg sql database
      (getQueryResultLocation eng.getCallerIdentity cfg.region)) = .ok qid)
    (hpoll : pollLoop eng.getQueryExecution 0 cfg.queryTimeout 0 = .timedOut n) :
    executeQuery eng cfg sql database =
      .failure ("Query timeout after " ++ toString cfg.queryTimeout ++ "ms") := by
  unfold executeQuery executeQueryTry afterSubmit
  rw [hready, hstart, hpoll]
  simp

/-- A poll loop that observed `FAILED`/`CANCELLED` yields the failure
envelope with the lowercased state and the (defaulted) engine reason. -/
theorem executeQuery_of_terminalFailed (eng : Engine) (cfg : Config) (sql : String)
    (database : Option String) (qid s : String) (st : StatusInfo) (n : Nat)
    (hready : cfg.athenaReady = true)
    (hstart : eng.startQueryExecution (mkStartParams cfg sql database
      (getQueryResultLocation eng.getCallerIdentity cfg.region)) = .ok qid)
    (hpoll : pollLoop eng.getQueryExecution 0 cfg.queryTimeout 0 =
      .terminalFailed s st n) :
    executeQuery eng cfg sql database =
      .failure ("Query " ++ lowerString s ++ ": " ++
        st.stateChangeReason.getD ("Unknown error")) := by
  unfold executeQuery executeQueryTry afterSubmit
  rw [hready, hstart, hpoll]
  simp

/-- A poll loop that observed `SUCCEEDED` yields the success envelope
built from the fetched raw result set and the statistics of the status
read that observed the terminal state. -/
theorem executeQuery_of_succeeded (eng : Engine) (cfg : Config) (sql : String)
    (database : Option String) (qid : String) (st : StatusInfo) (n : Nat)
    (rs : Option ResultSet)
    (hready : cfg.athenaReady = true)
    (hstart : eng.startQueryExecution (mkStartParams cfg sql database
      (getQueryResultLocation eng.getCallerIdentity cfg.region)) = .ok qid)
    (hpoll : pollLoop eng.getQueryExecution 0 cfg.queryTimeout 0 = .succeeded st n)
    (hres : eng.getQueryResults qid 1000 = .ok rs) :
    executeQuery eng cfg sql database =
      .success
        { query_execution_id := qid
          status := "SUCCEEDED"
          columns := (processResults rs).1
          rows := (processResults rs).2
          row_count := (processResults rs).2.length
          data_scanned_bytes := st.dataScannedInBytes.getD 0
          execution_time_ms := st.engineExecutionTimeInMillis.getD 0 } := by
  unfold executeQuery executeQueryTry afterSubmit
  rw [hready, hstart, hpoll]
  simp [hres]

/-! Stub collaborators for the scenario claims. -/

/-- Stub engine around a given status oracle: identity lookup succeeds,
submission succeeds with handle `exec-1`, result fetch returns an absent
result set, the stop call succeeds. -/
def stubEngine (status : Nat → Res StatusInfo) : Engine :=
  { getCallerIdentity := .ok ("111122223333")
    startQueryExecution := fun _ => .ok ("exec-1")
    getQueryExecution := status
    getQueryResults := fun _ _ => .ok none
    stopQueryExecution := fun _ => .ok () }

/-- Status oracle that never leaves `RUNNING`. -/
def alwaysRunning : Nat → Res StatusInfo := fun _ => .ok stRUNNING

/-- Standard test configuration: initialized client, 4000 ms timeout. -/
def cfgStd : Config :=
  { athenaReady := true
    region := "us-east-1"
    database := "default_db"
    workgroup := "primary"
    queryTimeout := 4000 }

/-- `cfgStd` with a 6000 ms (= 3 poll intervals) timeout. -/
def cfgTimeout6000 : Config := { cfgStd with queryTimeout := 6000 }

/-- `cfgStd` with a zero timeout. -/
def cfgTimeout0 : Config := { cfgStd with queryTimeout := 0 }

/-- A `FAILED` status response with reason `syntax error`. -/
def stFAILEDsyntax : StatusInfo :=
  { state := some ("FAILED")
    stateChangeReason := some ("syntax error")
    dataScannedInBytes := none
    engineExecutionTimeInMillis := none }

/-- Stub engine whose every status read reports `FAILED: syntax error`. -/
def engFailSyntax : Engine := stubEngine (fun _ => .ok stFAILEDsyntax)

/-- Stub engine whose stop call raises. -/
def engStopErr : Engine :=
  { stubEngine alwaysRunning with stopQueryExecution := fun _ => .err ("boom") }

/-- With the always-`RUNNING` oracle, one loop iteration under the
deadline just advances the wait time and the call count. -/
theorem pollLoop_running_step (w m c : Nat) (h : w < m) :
    pollLoop alwaysRunning w m c = pollLoop alwaysRunning (w + 2000) m (c + 1) :=
  pollLoop_step alwaysRunning h rfl (by decide) (by decide) (by decide)

/-- With the always-`RUNNING` oracle and a 6000 ms deadline the loop times
out after exactly 3 status calls. -/
theorem pollLoop_running_6000 : pollLoop alwaysRunning 0 6000 0 = .timedOut 3 := by
  rw [pollLoop_running_step 0 6000 0 (by decide), pollLoop_running_step 2000 6000 1 (by decide),
    pollLoop_running_step 4000 6000 2 (by decide), pollLoop_timeout alwaysRunning 3 (by decide)]

/-! The claims. -/

/-- C1: every `executeQuery` invocation, whatever the remote collaborators
do (including raising on any awaited call), returns exactly one outcome
envelope — a success envelope or a failure envelope, the latter covering
the engine-failure and timeout outcomes — and never propagates an
exception past its boundary: every raise inside the `try` body is caught
and converted into the `Execution error` failure envelope. -/
theorem C1_executeQuery_single_envelope (eng : Engine) (cfg : Config)
    (sql : String) (database : Option String) :
    ((∃ d, executeQuery eng cfg sql database = .success d) ∨
      (∃ e, executeQuery eng cfg sql database = .failure e)) ∧
    ¬ ((∃ d, executeQuery eng cfg sql database = .success d) ∧
      (∃ e, executeQuery eng cfg sql database = .failure e)) := by
  constructor
  · cases h : executeQuery eng cfg sql database with
    | success d => exact Or.inl ⟨d, rfl⟩
    | failure e => exact Or.inr ⟨e, rfl⟩
  · rintro ⟨⟨d, hd⟩, ⟨e, he⟩⟩
    rw [hd] at he
    exact ToolResponse.noConfusion he

/-- C2: against an engine that reports `QUEUED` for the first `N` status
reads and `SUCCEEDED` on the next, whenever `N` poll intervals fit
strictly under the timeout, the poll loop returns at the first terminal
observation having made exactly `N + 1` status calls — no further status
read follows it. -/
theorem C2_first_terminal_stops_polling (N m : Nat) (h : N * 2000 < m) :
    pollLoop (queuedThenSucceeded N) 0 m 0 = .succeeded stSUCCEEDED (N + 1) :=
  pollLoop_qts_aux N m N 0 0 (by omega) (by omega)

/-- Witness for C2 at `N = 2`, timeout 5000 ms. -/
theorem C2_witness :
    2 * 2000 < 5000 ∧
      pollLoop (queuedThenSucceeded 2) 0 5000 0 = .succeeded stSUCCEEDED 3 :=
  ⟨by omega, C2_first_terminal_stops_polling 2 5000 (by omega)⟩

/-- C10: an empty-string `database` argument is falsy, so `executeQuery`
submits against the configured default database, exactly as when the
argument is omitted. -/
theorem C10_empty_database_is_default (eng : Engine) (cfg : Config)
    (sql : String) (loc : String) :
    (mkStartParams cfg sql (some ("")) loc).database = cfg.database ∧
    mkStartParams cfg sql (some ("")) loc = mkStartParams cfg sql none loc ∧
    executeQuery eng cfg sql (some ("")) = executeQuery eng cfg sql none := by
  have hm : ∀ l, mkStartParams cfg sql (some ("")) l = mkStartParams cfg sql none l := by
    intro l
    simp [mkStartParams, orDefault]
  refine ⟨by simp [mkStartParams, orDefault], hm loc, ?_⟩
  unfold executeQuery executeQueryTry
  rw [hm]

/-- C3 fails as stated: on a terminal `FAILED` with engine reason
`syntax error` the failure string is `Query failed: syntax error`, not the
verbatim reason — the code prefixes the lowercased state. -/
theorem C3_counterexample :
    executeQuery engFailSyntax cfgStd ("SELECT * FROM t") none =
      .failure ("Query failed: syntax error") ∧
    ("Query failed: syntax error" : String) ≠ "syntax error" := by
  constructor
  · have hpoll : pollLoop engFailSyntax.getQueryExecution 0 cfgStd.queryTimeout 0 =
        .terminalFailed ("FAILED") stFAILEDsyntax 1 :=
      pollLoop_terminalFailed engFailSyntax.getQueryExecution (by decide) rfl rfl
        (Or.inl rfl)
    rw [executeQuery_of_terminalFailed engFailSyntax cfgStd ("SELECT * FROM t") none
      ("exec-1") ("FAILED") stFAILEDsyntax 1 rfl rfl hpoll]
    decide
  · decide

/-- C3 amended: when the first status read reports `FAILED`, the failure
envelope's error string is `Query failed: ` followed by the
engine-reported reason, the reason defaulting to `Unknown error` when the
engine omits it (so an omitted reason yields `Query failed: Unknown
error`, not the bare `Unknown error`). -/
theorem C3_amended_failed_reason_prefixed (eng : Engine) (cfg : Config)
    (sql : String) (database : Option String) (qid : String) (st : StatusInfo)
    (hready : cfg.athenaReady = true) (htimeout : 0 < cfg.queryTimeout)
    (hstart : eng.startQueryExecution (mkStartParams cfg sql database
      (getQueryResultLocation eng.getCallerIdentity cfg.region)) = .ok qid)
    (hstatus : eng.getQueryExecution 0 = .ok st)
    (hstate : st.state = some ("FAILED")) :
    executeQuery eng cfg sql database =
      .failure ("Query failed: " ++ st.stateChangeReason.getD ("Unknown error")) := by
  have hpoll := pollLoop_terminalFailed eng.getQueryExecution htimeout hstatus hstate
    (Or.inl rfl)
  rw [executeQuery_of_terminalFailed eng cfg sql database qid ("FAILED") st 1
    hready hstart hpoll]
  rw [(by decide : ("Query " ++ lowerString ("FAILED") ++ ": " : String) = "Query failed: ")]

/-- Witness for C3's amended statement on the `syntax error` stub. -/
theorem C3_witness :
    cfgStd.athenaReady = true ∧ 0 < cfgStd.queryTimeout ∧
    executeQuery engFailSyntax cfgStd ("SELECT 1") none =
      .failure ("Query failed: " ++ stFAILEDsyntax.stateChangeReason.getD ("Unknown error")) :=
  ⟨rfl, by decide,
    C3_amended_failed_reason_prefixed engFailSyntax cfgStd ("SELECT 1") none
      ("exec-1") stFAILEDsyntax rfl (by decide) rfl rfl rfl⟩

/-- The raw result set refuting C4: two known columns `a`, `b` but a row
with a single cell. -/
def rsShortRow : Option ResultSet :=
  some
    { columnInfo := some [{ Name := some ("a") }, { Name := some ("b") }]
      rows := some [{ Data := some [{ VarCharValue := some ("x") }] }] }

/-- C4 fails as stated: a row shorter than the known column list is
decoded with one entry per present cell only — the missing cell is absent
from the row mapping, not present as an empty string under `col_1`, and
there is no value at column index 1 at all. -/
theorem C4_counterexample :
    processResults rsShortRow = (["a", "b"], [[("a", "x")]]) ∧
    ([("a", "x")] : List (String × String)).lookup ("col_1") = none ∧
    ([("a", "x")] : List (String × String)).lookup ("b") = none := by
  refine ⟨by decide, by decide, by decide⟩

/-- C4 amended: a decoded row holds exactly one entry per present cell
(cells missing from a short row are simply absent), and the synthesized
`col_<index>` key with the cell's wire value is what appears when a
present cell's index falls outside the known column list — the case of a
row longer than the column list. -/
theorem C4_amended_short_rows_truncate (cols : List String) (cells : List Cell)
    (i : Nat) (h1 : i < cells.length) (h2 : cols.length ≤ i) :
    (decodeRowData cols cells).length = cells.length ∧
    (decodeRowData cols cells).getD i ("", "") =
      ("col_" ++ toString i, decodeCell (cells.getD i ⟨none⟩)) := by
  constructor
  · exact decodeRowDataAux_length cols cells 0
  · rw [decodeRowData, decodeRowDataAux_getD cols cells 0 i h1]
    unfold colKey
    rw [List.getD_eq_default cols ("") (by omega)]
    simp

/-- Witness for C4's amended statement: one column, a two-cell row. -/
theorem C4_witness :
    1 < ([⟨some ("x")⟩, ⟨some ("y")⟩] : List Cell).length ∧
    (["a"] : List String).length ≤ 1 ∧
    ((decodeRowData (["a"]) ([⟨some ("x")⟩, ⟨some ("y")⟩])).length =
        ([⟨some ("x")⟩, ⟨some ("y")⟩] : List Cell).length ∧
      (decodeRowData (["a"]) ([⟨some ("x")⟩, ⟨some ("y")⟩])).getD 1 ("", "") =
        ("col_" ++ toString 1,
          decodeCell (([⟨some ("x")⟩, ⟨some ("y")⟩] : List Cell).getD 1 ⟨none⟩))) :=
  ⟨by decide, by decide,
    C4_amended_short_rows_truncate (["a"]) ([⟨some ("x")⟩, ⟨some ("y")⟩]) 1
      (by decide) (by decide)⟩

/-- C5 fails as stated: with `timeoutMs = 0` the `while` condition gates
the first status read too — the loop body never runs, zero status calls
are made, and the timeout envelope is returned even against an engine
whose very first status read would have reported `SUCCEEDED`. -/
theorem C5_counterexample :
    pollLoop (queuedThenSucceeded 0) 0 0 0 = .timedOut 0 ∧
    (PollResult.timedOut 0).calls = 0 ∧
    executeQuery (stubEngine (queuedThenSucceeded 0)) cfgTimeout0 ("SELECT 1") none =
      .failure ("Query timeout after 0ms") := by
  refine ⟨pollLoop_timeout (queuedThenSucceeded 0) 0 (by decide), rfl, ?_⟩
  have hpoll : pollLoop (stubEngine (queuedThenSucceeded 0)).getQueryExecution 0
      cfgTimeout0.queryTimeout 0 = .timedOut 0 :=
    pollLoop_timeout (stubEngine (queuedThenSucceeded 0)).getQueryExecution 0 (by decide)
  rw [executeQuery_of_timedOut (stubEngine (queuedThenSucceeded 0)) cfgTimeout0
    ("SELECT 1") none ("exec-1") 0 rfl rfl hpoll]
  decide

/-- C5 amended: for every strictly positive `timeoutMs` — including values
smaller than one poll interval — the loop performs at least one status
check before any timeout decision; only the degenerate `timeoutMs = 0`
returns Timeout with no status check at all. -/
theorem C5_amended_positive_timeout_polls_once (g : Nat → Res StatusInfo)
    (m : Nat) (h : 0 < m) : 1 ≤ (pollLoop g 0 m 0).calls := by
  rw [pollLoop]
  rw [if_pos h]
  cases hg : g 0 with
  | err msg => exact Nat.le_refl 1
  | ok st =>
    by_cases h1 : st.state = some ("SUCCEEDED")
    · simp only [h1, if_pos]
      exact Nat.le_refl 1
    · by_cases h2 : st.state = some ("FAILED")
      · simp only [h1, h2, if_neg, if_pos]
        exact Nat.le_refl 1
      · by_cases h3 : st.state = some ("CANCELLED")
        · simp only [h1, h2, h3, if_neg, if_pos]
          exact Nat.le_refl 1
        · simp only [h1, h2, h3, if_neg]
          exact pollLoop_calls_le g m 2000 1

/-- Witness for C5's amended statement: a 100 ms timeout, smaller than one
poll interval, still gets one status check. -/
theorem C5_witness : 0 < 100 ∧ 1 ≤ (pollLoop alwaysRunning 0 100 0).calls :=
  ⟨by omega, C5_amended_positive_timeout_polls_once alwaysRunning 100 (by omega)⟩

/-- C6 fails as stated: when the remote stop call itself raises,
`cancelQuery` surfaces the error as a failure envelope instead of the
locally-synthesized `CANCELLED` acknowledgement. -/
theorem C6_counterexample :
    cancelQuery engStopErr cfgStd ("exec-123") =
      .failure ("Error cancelling query: boom") ∧
    (ToolResponse.failure ("Error cancelling query: boom") ≠
      (ToolResponse.success
        { query_execution_id := "exec-123"
          status := "CANCELLED"
          message := "Query cancellation requested" } : ToolResponse CancelData)) := by
  refine ⟨by decide, by decide⟩

/-- C6 amended: when the stop call succeeds, `cancelQuery` returns the
locally-synthesized `CANCELLED` acknowledgement with the
`Query cancellation requested` message, and it never polls — its result
does not depend on the status oracle at all; when the stop call raises,
it returns the `Error cancelling query` failure envelope instead. -/
theorem C6_amended_cancel_ack (eng : Engine) (cfg : Config) (qid : String)
    (hready : cfg.athenaReady = true) :
    (∀ u, eng.stopQueryExecution qid = .ok u →
      cancelQuery eng cfg qid =
        .success
          { query_execution_id := qid
            status := "CANCELLED"
            message := "Query cancellation requested" }) ∧
    (∀ m, eng.stopQueryExecution qid = .err m →
      cancelQuery eng cfg qid = .failure ("Error cancelling query: " ++ m)) ∧
    (∀ g, cancelQuery { eng with getQueryExecution := g } cfg qid =
      cancelQuery eng cfg qid) := by
  refine ⟨?_, ?_, ?_⟩
  · intro u hu
    simp [cancelQuery, hready, hu]
  · intro m hm
    simp [cancelQuery, hready, hm]
  · intro g
    simp [cancelQuery]

/-- Witness for C6's amended statement on the standard stub engine. -/
theorem C6_witness :
    cfgStd.athenaReady = true ∧
    ((∀ u, (stubEngine alwaysRunning).stopQueryExecution ("exec-123") = .ok u →
      cancelQuery (stubEngine alwaysRunning) cfgStd ("exec-123") =
        .success
          { query_execution_id := "exec-123"
            status := "CANCELLED"
            message := "Query cancellation requested" }) ∧
    (∀ m, (stubEngine alwaysRunning).stopQueryExecution ("exec-123") = .err m →
      cancelQuery (stubEngine alwaysRunning) cfgStd ("exec-123") =
        .failure ("Error cancelling query: " ++ m)) ∧
    (∀ g, cancelQuery { stubEngine alwaysRunning with getQueryExecution := g }
        cfgStd ("exec-123") =
      cancelQuery (stubEngine alwaysRunning) cfgStd ("exec-123"))) :=
  ⟨rfl, C6_amended_cancel_ack (stubEngine alwaysRunning) cfgStd ("exec-123") rfl⟩

/-- C7: with no engine-reported column metadata and a non-empty row list,
the first raw row's cell values become the column names and every
subsequent raw row is decoded as data against that synthesized column
list, in wire order — so the first data row of the decoded table is the
second raw row, and the decoded table has one data row per remaining raw
row. -/
theorem C7_first_row_as_header (r0 : Row) (rest : List Row) :
    processResults (some { columnInfo := none, rows := some (r0 :: rest) }) =
      ((r0.Data.getD []).map decodeCell,
        rest.map (fun r =>
          decodeRowData ((r0.Data.getD []).map decodeCell) (r.Data.getD []))) ∧
    (processResults (some { columnInfo := none, rows := some (r0 :: rest) })).2.length =
      rest.length := by
  have h0 : processRow ([], []) (0, r0) = ((r0.Data.getD []).map decodeCell, []) := by
    unfold processRow
    rw [if_pos ⟨rfl, rfl⟩]
    simp
  have hmain : processResults (some { columnInfo := none, rows := some (r0 :: rest) }) =
      ((r0.Data.getD []).map decodeCell,
        rest.map (fun r =>
          decodeRowData ((r0.Data.getD []).map decodeCell) (r.Data.getD []))) := by
    show ((0, r0) :: List.enumFrom 1 rest).foldl processRow ([], []) = _
    rw [List.foldl_cons, h0,
      foldl_processRow_enumFrom rest 1 ((r0.Data.getD []).map decodeCell) [] (by omega)]
    simp
  refine ⟨hmain, ?_⟩
  rw [hmain]
  simp

/-- Raw result set with one reported column `a` and one data row `1`. -/
def rsOneCol : Option ResultSet :=
  some
    { columnInfo := some [{ Name := some ("a") }]
      rows := some [{ Data := some [{ VarCharValue := some ("1") }] }] }

/-- Stub engine whose identity lookup raises but whose submission, first
status read (`SUCCEEDED`) and result fetch all succeed. -/
def engIdErrSucc : Engine :=
  { getCallerIdentity := .err ("AccessDenied")
    startQueryExecution := fun _ => .ok ("exec-8")
    getQueryExecution := queuedThenSucceeded 0
    getQueryResults := fun _ _ => .ok rsOneCol
    stopQueryExecution := fun _ => .ok () }

/-- C8: the result-location resolver is total over every behaviour of the
identity lookup — on a raise it yields the per-region default URI, on
success the per-account, per-region URI — and when the lookup raises the
query still proceeds to submission with the default URI; a full
`executeQuery` against such an engine still returns a success envelope. -/
theorem C8_identity_lookup_fallback (eng : Engine) (cfg : Config) (sql : String)
    (database : Option String) (e : String)
    (hid : eng.getCallerIdentity = .err e) :
    getQueryResultLocation eng.getCallerIdentity cfg.region =
      "s3://aws-athena-query-results-" ++ cfg.region ++ "-default/" ∧
    executeQueryTry eng cfg sql database =
      afterSubmit eng cfg (eng.startQueryExecution (mkStartParams cfg sql database
        ("s3://aws-athena-query-results-" ++ cfg.region ++ "-default/"))) ∧
    (∀ a r, getQueryResultLocation (.ok a) r =
      "s3://aws-athena-query-results-" ++ r ++ "-" ++ a ++ "/") ∧
    executeQuery engIdErrSucc cfgStd ("SELECT 1") none =
      .success
        { query_execution_id := "exec-8"
          status := "SUCCEEDED"
          columns := ["a"]
          rows := [[("a", "1")]]
          row_count := 1
          data_scanned_bytes := 0
          execution_time_ms := 0 } := by
  refine ⟨?_, ?_, fun a r => rfl, ?_⟩
  · rw [hid]
    rfl
  · unfold executeQueryTry
    rw [hid]
    rfl
  · have hpoll : pollLoop engIdErrSucc.getQueryExecution 0 cfgStd.queryTimeout 0 =
        .succeeded stSUCCEEDED 1 :=
      pollLoop_succeeded engIdErrSucc.getQueryExecution (by decide) rfl rfl
    rw [executeQuery_of_succeeded engIdErrSucc cfgStd ("SELECT 1") none ("exec-8")
      stSUCCEEDED 1 rsOneCol rfl rfl hpoll rfl]
    decide

/-- Witness for C8 on the raising-identity stub engine. -/
theorem C8_witness :
    engIdErrSucc.getCallerIdentity = .err ("AccessDenied") ∧
    getQueryResultLocation engIdErrSucc.getCallerIdentity cfgStd.region =
      "s3://aws-athena-query-results-" ++ cfgStd.region ++ "-default/" :=
  ⟨rfl, (C8_identity_lookup_fallback engIdErrSucc cfgStd ("SELECT 1") none
    ("AccessDenied") rfl).1⟩

/-- C9: against an engine that never reports a terminal state, with the
timeout configured to three poll intervals (6000 ms) the loop terminates
with a timeout after exactly 3 status calls (at most 4), and the call
returns the failure envelope carrying the configured timeout. -/
theorem C9_never_terminal_times_out :
    cfgTimeout6000.queryTimeout = 3 * 2000 ∧
    pollLoop (stubEngine alwaysRunning).getQueryExecution 0
      cfgTimeout6000.queryTimeout 0 = .timedOut 3 ∧
    (pollLoop (stubEngine alwaysRunning).getQueryExecution 0
      cfgTimeout6000.queryTimeout 0).calls ≤ 4 ∧
    executeQuery (stubEngine alwaysRunning) cfgTimeout6000 ("SELECT 1") none =
      .failure ("Query timeout after 6000ms") := by
  have hpoll : pollLoop (stubEngine alwaysRunning).getQueryExecution 0
      cfgTimeout6000.queryTimeout 0 = .timedOut 3 := pollLoop_running_6000
  refine ⟨rfl, hpoll, ?_, ?_⟩
  · rw [hpoll]
    decide
  · rw [executeQuery_of_timedOut (stubEngine alwaysRunning) cfgTimeout6000 ("SELECT 1")
      none ("exec-1") 3 rfl rfl hpoll]
    decide

end Athena
